import Mathlib

/-!
Verification of the batch execution pipeline of `cortex_processor.py`
(`CortexProcessor.process_csv`) and its caller `routers/jobs.py`
(`process_questions`).

The pipeline is shallowly embedded as pure Lean functions.  The external
Cortex Analyst call and the backend SQL execution are modelled as oracles
supplied in an environment (`ItemEnv` / `BatchEnv`): for each item and each
attempt index the oracle says whether the call raises (transport failure) or
returns a parsed response, and for each SQL statement whether execution fails
or returns rows together with its measured duration.  Timed sleeps, external
calls and status-callback invocations are recorded in an event trace so that
temporal claims (backoff waits, throttle pauses, observer snapshots) can be
stated.  Wall-clock API timestamps and durations are not modelled: the fields
exist in the record but carry 0, matching no claim under scrutiny.
-/

namespace CortexAnalystUI

/-- Mirror of the dataclass `ProcessingStatus` in `cortex_processor.py`.
`started_at` / `completed_at` are modelled as `Option Unit` (set or unset)
since only their being set matters, not the wall-clock value. -/
structure ProcessingStatus where
  job_id : String
  status : String
  total : Nat := 0
  processed : Nat := 0
  successful : Nat := 0
  failed : Nat := 0
  error_392708 : Nat := 0
  started_at : Option Unit := none
  completed_at : Option Unit := none
  error : Option String := none
  output_json : Option String := none
  output_csv : Option String := none
deriving DecidableEq

/-- Mirror of one element of the `message.content` list of a WELL-SHAPED
Cortex Analyst reply: a dict with optional `type`, `text` and `statement`
keys (`item.get(...)` in the source).  Non-dict content items, on which
the source raises, are representable only in the dynamic `PyVal` model
below. -/
structure ContentItem where
  type : Option String := none
  text : Option String := none
  statement : Option String := none
deriving DecidableEq

/-- Mirror of the `message` object of a well-shaped reply: an optional
`content` list (`parsed.get("message", \x7b\x7d).get("content", [])`).
A `content` key present with a non-list value, on which the source
raises, is representable only in the dynamic `PyVal` model below. -/
structure Message where
  content : Option (List ContentItem) := none
deriving DecidableEq

/-- Mirror of a well-shaped parsed reply of `call_cortex_analyst`:
optional top-level `error_code` and optional `message` object.  These
typed structures carry the pipeline-level embedding; arbitrary (possibly
malformed) reply shapes, on which the extraction site can raise, are
modelled by the dynamic `PyVal` value below for the response-contract
claim. -/
structure ApiResponse where
  error_code : Option String := none
  message : Option Message := none
deriving DecidableEq

/-- Outcome of one invocation of `call_cortex_analyst`: the call either
raises an exception with a message or returns a parsed reply. -/
inductive CallResult where
  | raises (msg : String)
  | returns (resp : ApiResponse)
deriving DecidableEq

/-- One row returned by the backend, as consumed by `row_to_dict`: either a
row convertible to a flat mapping of column name to (stringified) value, or
one whose conversion raises with an error message. -/
inductive Row where
  | ok (fields : List (String × String))
  | bad (err : String)
deriving DecidableEq

/-- Outcome of `self.session.sql(stmt).collect()`: an exception with a
message, or a list of rows.  The measured wall-clock duration of the
execution (ms) is part of the oracle since the source records it in both
branches. -/
inductive SqlResult where
  | err (msg : String) (duration_ms : Nat)
  | rows (rs : List Row) (duration_ms : Nat)

/-- Oracle for one item of the batch: the result of the k-th external call
(attempt index `k`, 0-based) and the backend behaviour per SQL statement. -/
structure ItemEnv where
  attempts : Nat → CallResult
  sqlExec : String → SqlResult

/-- Oracle for the whole batch, indexed by the 1-based item position (the
`enumerate(questions, 1)` index of the source). -/
structure BatchEnv where
  items : Nat → ItemEnv

/-- One input record: `row.get("Id")`-style optional identifier and the
question text (empty when absent, which the source treats as falsy). -/
structure Question where
  id : Option String := none
  question : String := ""
deriving DecidableEq

/-- Observable events of a batch run, in order: a throttle cooldown sleep, a
backoff wait before a retry attempt, one external call, a status-callback
invocation with the status value passed to it, and the inter-item rate-limit
delay. All sleep arguments are in seconds. -/
inductive Event where
  | throttle (seconds : Nat)
  | wait (seconds : Nat)
  | call
  | snapshot (s : ProcessingStatus)
  | interDelay (seconds : Nat)
deriving DecidableEq

/-- Mirror of the per-item result dict appended to `results`.  The
wall-clock fields `api_duration_ms` and `total_duration_ms` (and the ISO
timestamps, omitted) are not modelled and carry 0. -/
structure ItemRecord where
  question_id : String
  question : String
  interpretation : String
  sql : String
  query_results : String
  full_response : String
  api_duration_ms : Nat
  sql_duration_ms : Nat
  total_duration_ms : Nat
  status : String
  error : Option String := none
deriving DecidableEq

/-- Processing configuration set in `CortexProcessor.__init__`. -/
structure Config where
  max_retries : Nat := 3
  delay_between_requests : Nat := 5

/-- Default configuration of `CortexProcessor.__init__`:
`max_retries = 3`, `delay_between_requests = 5`. -/
def defaultConfig : Config := {}

/-- Render of an optional string as a JSON scalar (string escaping is not
modelled; none of the claims inspects escaped content). -/
def renderOptStr : Option String → String
  | none => "null"
  | some s => "\"" ++ s ++ "\""

/-- Render of one content item, standing in for `json.dumps` on the raw
reply fragment. -/
def renderContentItem (it : ContentItem) : String :=
  "\x7b\"type\": " ++ renderOptStr it.type ++ ", \"text\": " ++
    renderOptStr it.text ++ ", \"statement\": " ++
    renderOptStr it.statement ++ "\x7d"

/-- Render of the `message` object. -/
def renderMessage (m : Message) : String :=
  "\x7b\"content\": " ++
    (match m.content with
     | none => "null"
     | some items =>
         "[" ++ String.intercalate ", " (items.map renderContentItem) ++ "]") ++
    "\x7d"

/-- Render of a full reply, standing in for
`json.dumps(parsed, default=str)`. -/
def renderResponse (resp : ApiResponse) : String :=
  "\x7b\"error_code\": " ++ renderOptStr resp.error_code ++ ", \"message\": " ++
    (match resp.message with
     | none => "null"
     | some m => renderMessage m) ++ "\x7d"

/-- Mirror of `row_to_dict`: convert a row to a flat mapping, falling back
to an error entry when the conversion raises (the source catches the
exception internally and never propagates it). -/
def row_to_dict : Row → List (String × String)
  | Row.ok fields => fields
  | Row.bad e => [("error", "Could not convert row: " ++ e)]

/-- Render of one converted row, standing in for `json.dumps` on a dict. -/
def renderDict (d : List (String × String)) : String :=
  "\x7b" ++
    String.intercalate ", "
      (d.map fun kv => "\"" ++ kv.1 ++ "\": \"" ++ kv.2 ++ "\"") ++
  "\x7d"

/-- Serialization of the converted row list, standing in for
`json.dumps(query_results_list, default=str)`. -/
def serializeRows (ds : List (List (String × String))) : String :=
  "[" ++ String.intercalate ", " (ds.map renderDict) ++ "]"

/-- Mirror of `if len(qr) > 100: qr = qr[:100]`. -/
def cappedRows (qr : List Row) : List Row :=
  if qr.length > 100 then qr.take 100 else qr

/-- Mirror of the SQL-execution block guarded by `if sql_statement:`.
Returns the `query_results` string, the recorded `sql_duration_ms`, and the
row count logged on success (`len(qr)` after capping); `none` when no query
ran or the backend raised. -/
def runGeneratedSql (env : ItemEnv) (sqlStmt : String) :
    String × Nat × Option Nat :=
  if sqlStmt ≠ "" then
    match env.sqlExec sqlStmt with
    | SqlResult.rows qr d =>
        let qr := cappedRows qr
        (serializeRows (qr.map row_to_dict), d, some qr.length)
    | SqlResult.err msg d => ("SQL error: " ++ msg, d, none)
  else ("", 0, none)

/-- Content list that the extraction loop iterates over:
`parsed.get("message", \x7b\x7d).get("content", [])`. -/
def contentItems (resp : ApiResponse) : List ContentItem :=
  match resp.message with
  | none => []
  | some m => m.content.getD []

/-- Mirror of the extraction loop over the content list: an item tagged
`"text"` overwrites the interpretation, an item tagged `"sql"` overwrites
the statement, anything else is ignored; missing fields default to `""`. -/
def extractLoop : List ContentItem → String × String → String × String
  | [], acc => acc
  | it :: rest, acc =>
      let acc :=
        if it.type = some "text" then (it.text.getD "", acc.2)
        else if it.type = some "sql" then (acc.1, it.statement.getD "")
        else acc
      extractLoop rest acc

/-- Extraction of `(interpretation, sql_statement)` from a parsed reply;
total, raising nothing, yielding `("", "")` on unexpected shapes. -/
def extractContent (resp : ApiResponse) : String × String :=
  extractLoop (contentItems resp) ("", "")

/-- Mirror of the f-string `Error 392708: ...` built from `parsed.get("message", "Unknown")`. -/
def semanticErrorText (resp : ApiResponse) : String :=
  "Error 392708: " ++
    (match resp.message with
     | none => "Unknown"
     | some m => renderMessage m)

/-- Success record appended to `results` (the `status: "success"` dict of
the source; no `error` key). -/
def successRecord (qid question interp sqlStmt queryResults : String)
    (resp : ApiResponse) (sqlDur : Nat) : ItemRecord :=
  { question_id := qid
    question := question
    interpretation := interp
    sql := sqlStmt
    query_results := queryResults
    full_response := renderResponse resp
    api_duration_ms := 0
    sql_duration_ms := sqlDur
    total_duration_ms := 0
    status := "success"
    error := none }

/-- Failure record appended to `results` when the retry loop ends without
success (`full_response = json.dumps(\x7b"error": last_error\x7d)`). -/
def failedRecord (qid question : String) (lastError : Option String) :
    ItemRecord :=
  { question_id := qid
    question := question
    interpretation := ""
    sql := ""
    query_results := ""
    full_response := "\x7b\"error\": " ++ renderOptStr lastError ++ "\x7d"
    api_duration_ms := 0
    sql_duration_ms := 0
    total_duration_ms := 0
    status := "failed"
    error := lastError }

/-- Outcome of the retry loop for one item: whether a success record was
appended, the last seen error, the `consecutive_errors` counter after the
loop, how much `status.error_392708` was incremented inside the loop, the
appended success record if any, and the events (waits and calls) of the
loop. -/
structure RetryResult where
  success : Bool
  lastError : Option String
  consec : Nat
  err392inc : Nat
  itemRec : Option ItemRecord
  trace : List Event

/-- Mirror of the retry loop `for retry in range(self.max_retries)`:
`remaining` counts attempts still allowed, `k` is the current attempt index
(the `retry` variable of the source), `consec` the running `consecutive_errors`,
`lastError` the `last_error` variable.  Attempt `k ≥ 1` is preceded by a
wait of `5 * 2 ^ (k - 1)` seconds.  A reply with `error_code == "392708"`
breaks out without retrying; any raised exception is recorded and the next
attempt runs; a clean reply produces the success record and resets
`consecutive_errors`. -/
def retryGo (env : ItemEnv) (qid question : String) :
    Nat → Nat → Nat → Option String → RetryResult
  | 0, _, consec, lastError =>
      { success := false
        lastError := lastError
        consec := consec
        err392inc := 0
        itemRec := none
        trace := [] }
  | remaining + 1, k, consec, lastError =>
      let waitEv : List Event :=
        if k > 0 then [Event.wait (5 * 2 ^ (k - 1))] else []
      match env.attempts k with
      | CallResult.raises msg =>
          let r := retryGo env qid question remaining (k + 1) (consec + 1) (some msg)
          { r with trace := waitEv ++ Event.call :: r.trace }
      | CallResult.returns resp =>
          if resp.error_code = some "392708" then
            { success := false
              lastError := some (semanticErrorText resp)
              consec := consec + 1
              err392inc := 1
              itemRec := none
              trace := waitEv ++ [Event.call] }
          else
            let ex := extractContent resp
            let sqlOut := runGeneratedSql env ex.2
            { success := true
              lastError := lastError
              consec := 0
              err392inc := 0
              itemRec := some (successRecord qid question ex.1 ex.2 sqlOut.1 resp sqlOut.2.1)
              trace := waitEv ++ [Event.call] }

/-- Mirror of the throttle check at the top of the item loop:
`if consecutive_errors >= 3: sleep(30); consecutive_errors = 0`.  Returns
the emitted events and the counter afterwards. -/
def throttleCheck (consec : Nat) : List Event × Nat :=
  if consec ≥ 3 then ([Event.throttle 30], 0) else ([], consec)

/-- Mirror of `row.get("Id") or row.get("id") or idx`: a missing or falsy
(empty) identifier falls back to the 1-based position.  The two key
spellings are collapsed into one optional field. -/
def questionId (q : Question) (idx : Nat) : String :=
  match q.id with
  | some s => if s = "" then toString idx else s
  | none => toString idx

/-- Status counter updates around one processed item: `error_392708` was
incremented inside the loop, `successful` on the success break, `failed`
in the `if not success:` block, then `processed += 1`. -/
def stepStatus (st : ProcessingStatus) (r : RetryResult) : ProcessingStatus :=
  let st := { st with error_392708 := st.error_392708 + r.err392inc }
  let st :=
    if r.success then { st with successful := st.successful + 1 }
    else { st with failed := st.failed + 1 }
  { st with processed := st.processed + 1 }

/-- Mirror of the item loop `for idx, row in enumerate(questions, 1)`.
A row with empty question text is skipped entirely (`continue`): no
counters advance, no callback fires, no delay is slept.  Otherwise the
throttle check runs, the retry loop runs, exactly one result record is
appended, the status is updated, the callback fires with the current
status, and the inter-item delay is slept when `idx < len(questions)`. -/
def processLoop (env : BatchEnv) (cfg : Config) (total : Nat) :
    List Question → Nat → Nat → ProcessingStatus →
    List ItemRecord × ProcessingStatus × List Event
  | [], _, _, st => ([], st, [])
  | q :: rest, idx, consec, st =>
      if q.question = "" then
        processLoop env cfg total rest (idx + 1) consec st
      else
        let tc := throttleCheck consec
        let r := retryGo (env.items idx) (questionId q idx) q.question
          cfg.max_retries 0 tc.2 none
        let st1 := stepStatus st r
        let record := r.itemRec.getD (failedRecord (questionId q idx) q.question r.lastError)
        let delayEv : List Event :=
          if idx < total then [Event.interDelay cfg.delay_between_requests] else []
        let out := processLoop env cfg total rest (idx + 1) r.consec st1
        (record :: out.1, out.2.1,
          tc.1 ++ r.trace ++ Event.snapshot st1 :: (delayEv ++ out.2.2))

/-- Body of `process_csv` after the session check: initialize the status
(`status="processing"`, `total = len(questions)`, `started_at` set), run the
item loop, set `completed_at`, and fire the final callback.  Returns the
result records, the final status, and the event trace. -/
def runBatch (env : BatchEnv) (cfg : Config) (questions : List Question)
    (job_id : String) : List ItemRecord × ProcessingStatus × List Event :=
  let st0 : ProcessingStatus :=
    { job_id := job_id
      status := "processing"
      total := questions.length
      started_at := some () }
  let out := processLoop env cfg questions.length questions 1 0 st0
  let stFinal := { out.2.1 with completed_at := some () }
  (out.1, stFinal, out.2.2 ++ [Event.snapshot stFinal])

/-- Mirror of `process_csv`: raises (`Except.error`) when no session is
connected, before any item is processed; otherwise runs the batch and
returns normally. -/
def process_csv (sessionConnected : Bool) (env : BatchEnv) (cfg : Config)
    (questions : List Question) (job_id : String) :
    Except String (List ItemRecord × ProcessingStatus × List Event) :=
  if sessionConnected then Except.ok (runBatch env cfg questions job_id)
  else Except.error "Not connected to Snowflake. Call test_connection() first."

/-- Mirror of the post-run step of `process_questions` in
`routers/jobs.py`: after `process_csv` returns, the caller sets
`status = "completed"`, `completed_at`, and the output artifact paths on the
job registry status. -/
def jobsFinalize (st : ProcessingStatus) (output_json output_csv : String) :
    ProcessingStatus :=
  { st with
      status := "completed"
      completed_at := some ()
      output_json := some output_json
      output_csv := some output_csv }

/-- Events of the k-th attempt according to the backoff schedule stated in
the spec: attempt 0 executes with no preceding wait, attempt `k ≥ 1` is
preceded by a wait of `5 * 2 ^ (k - 1)` seconds (base delay 5s). -/
def attemptEvents (k : Nat) : List Event :=
  if k > 0 then [Event.wait (5 * 2 ^ (k - 1)), Event.call] else [Event.call]

/-- Event trace of `m` consecutive attempts, starting at attempt index
`k`, according to the backoff schedule stated in the spec. -/
def schedFrom (k : Nat) : Nat → List Event
  | 0 => []
  | m + 1 => attemptEvents k ++ schedFrom (k + 1) m

/-- Number of external calls recorded in a trace. -/
def callCount : List Event → Nat
  | [] => 0
  | Event.call :: rest => callCount rest + 1
  | _ :: rest => callCount rest

/-- Item oracle whose external call always raises a transport error. -/
def transportFailEnv : ItemEnv :=
  { attempts := fun _ => CallResult.raises "boom"
    sqlExec := fun _ => SqlResult.err "no backend" 0 }

/-- Item oracle whose external call returns a clean reply with no content
(no SQL generated). -/
def cleanEnv : ItemEnv :=
  { attempts := fun _ => CallResult.returns {}
    sqlExec := fun _ => SqlResult.err "no backend" 0 }

/-- Item oracle whose external call always reports semantic error 392708. -/
def semanticEnv : ItemEnv :=
  { attempts := fun _ => CallResult.returns { error_code := some "392708" }
    sqlExec := fun _ => SqlResult.err "no backend" 0 }

/-- Reply carrying one generated SQL statement and no text. -/
def sqlReply : ApiResponse :=
  { message := some { content := some [{ type := some "sql", statement := some "SELECT 1" }] } }

/-- Item oracle returning a reply with SQL whose execution raises. -/
def sqlErrEnv : ItemEnv :=
  { attempts := fun _ => CallResult.returns sqlReply
    sqlExec := fun _ => SqlResult.err "table missing" 42 }

/-- Item oracle returning a reply with SQL whose execution yields 150 rows
in 7 ms. -/
def bigRowsEnv : ItemEnv :=
  { attempts := fun _ => CallResult.returns sqlReply
    sqlExec := fun _ => SqlResult.rows (List.replicate 150 (Row.ok [("A", "1")])) 7 }

/-- Batch oracle giving every item the same behaviour. -/
def constBatchEnv (e : ItemEnv) : BatchEnv := ⟨fun _ => e⟩

/-- Item oracle whose first attempt raises a transport error and whose
later attempts report semantic error 392708. -/
def mixedFailEnv : ItemEnv :=
  { attempts := fun k =>
      if k = 0 then CallResult.raises "boom"
      else CallResult.returns { error_code := some "392708" }
    sqlExec := fun _ => SqlResult.err "no backend" 0 }

/-- Dynamic (loosely-typed) Python value, used to model the response
contract on ARBITRARY reply shapes — including the malformed ones the
typed `ApiResponse`/`Message`/`ContentItem` structures cannot represent.
`pynone` stands for Python `None` (and behaves like any other
non-dict, non-iterable scalar for the operations modelled here). -/
inductive PyVal where
  | str (s : String)
  | pynone
  | list (items : List PyVal)
  | dict (fields : List (String × PyVal))

/-- Mirror of Python `v.get(key, dflt)`: on a dict, the value under the
key or the default; on anything else an `AttributeError` is raised. -/
def pyGet (v : PyVal) (key : String) (dflt : PyVal) : Except String PyVal :=
  match v with
  | PyVal.dict fields => Except.ok ((fields.lookup key).getD dflt)
  | _ => Except.error "AttributeError: get"

/-- Mirror of Python iteration as used by the `for item in ...:` loop at
the extraction site: lists yield their items, dicts yield their keys,
strings yield their characters, `None` raises a `TypeError`. -/
def pyIter : PyVal → Except String (List PyVal)
  | PyVal.list items => Except.ok items
  | PyVal.dict fields => Except.ok (fields.map fun kv => PyVal.str kv.1)
  | PyVal.str s => Except.ok (s.toList.map fun c => PyVal.str (String.singleton c))
  | PyVal.pynone => Except.error "TypeError: not iterable"

/-- Whether a dynamic value is a dict. -/
def pyIsDict : PyVal → Bool
  | PyVal.dict _ => true
  | _ => false

/-- Mirror of the extraction loop (lines 199-203) on dynamic values:
`item.get("type")` raises on a non-dict item; a `"text"` tag overwrites
the interpretation with `item.get("text", "")`, a `"sql"` tag overwrites
the statement with `item.get("statement", "")`, any other tag (or a
non-string tag, including the `None` default) is ignored.  An
`Except.error` models an exception propagating out of the loop into the
per-item retry `except` block. -/
def extractDyn : List PyVal → PyVal × PyVal → Except String (PyVal × PyVal)
  | [], acc => Except.ok acc
  | item :: rest, acc =>
      match pyGet item "type" PyVal.pynone with
      | Except.error e => Except.error e
      | Except.ok t =>
          match t with
          | PyVal.str s =>
              if s = "text" then
                match pyGet item "text" (PyVal.str "") with
                | Except.error e => Except.error e
                | Except.ok tx => extractDyn rest (tx, acc.2)
              else if s = "sql" then
                match pyGet item "statement" (PyVal.str "") with
                | Except.error e => Except.error e
                | Except.ok st => extractDyn rest (acc.1, st)
              else extractDyn rest acc
          | _ => extractDyn rest acc

/-- Mirror of the full extraction
`for item in parsed.get("message", \x7b\x7d).get("content", []): ...` on a
dynamic reply value: a missing `message` key defaults to an empty dict, a
missing `content` key defaults to an empty list, but a PRESENT
`message`/`content` of the wrong dynamic type raises
(`AttributeError`/`TypeError`), exactly as the source does at line 199. -/
def extractContentDyn (parsed : PyVal) : Except String (PyVal × PyVal) :=
  match pyGet parsed "message" (PyVal.dict []) with
  | Except.error e => Except.error e
  | Except.ok msg =>
      match pyGet msg "content" (PyVal.list []) with
      | Except.error e => Except.error e
      | Except.ok content =>
          match pyIter content with
          | Except.error e => Except.error e
          | Except.ok items => extractDyn items (PyVal.str "", PyVal.str "")

/-- Counter bookkeeping of one processed item: `processed` advances by one,
exactly one of `successful`/`failed` advances by one, and the identity
fields are untouched. -/
theorem stepStatus_fields (st : ProcessingStatus) (r : RetryResult) :
    (stepStatus st r).processed = st.processed + 1 ∧
    (stepStatus st r).total = st.total ∧
    (stepStatus st r).status = st.status ∧
    (stepStatus st r).job_id = st.job_id ∧
    (stepStatus st r).completed_at = st.completed_at ∧
    (stepStatus st r).successful + (stepStatus st r).failed =
      st.successful + st.failed + 1 := by
  simp only [stepStatus]
  split <;> simp <;> omega

/-- Throttle events never contain a status snapshot. -/
theorem throttleCheck_no_snapshot (consec : Nat) (s : ProcessingStatus) :
    Event.snapshot s ∉ (throttleCheck consec).1 := by
  simp only [throttleCheck]
  split <;> simp

/-- Trace of the retry loop equals the spec backoff schedule over the
number of attempts actually made, which never exceeds the remaining
budget. -/
theorem retryGo_trace_eq_sched (env : ItemEnv) (qid question : String) :
    ∀ n k consec le, ∃ m, m ≤ n ∧
      (retryGo env qid question n k consec le).trace = schedFrom k m := by
  intro n
  induction n with
  | zero => intro k consec le; exact ⟨0, Nat.le_refl 0, rfl⟩
  | succ nn ih =>
      intro k consec le
      cases hA : env.attempts k with
      | raises msg =>
          obtain ⟨m, hm, ht⟩ := ih (k + 1) (consec + 1) (some msg)
          refine ⟨m + 1, by omega, ?_⟩
          simp only [retryGo, hA, ht, schedFrom, attemptEvents]
          split <;> simp
      | returns resp =>
          by_cases hc : resp.error_code = some "392708"
          · refine ⟨1, by omega, ?_⟩
            simp only [retryGo, hA, if_pos hc]
            by_cases hk : k > 0 <;> simp [hk, schedFrom, attemptEvents]
          · refine ⟨1, by omega, ?_⟩
            simp only [retryGo, hA, if_neg hc]
            by_cases hk : k > 0 <;> simp [hk, schedFrom, attemptEvents]

/-- Elements of the spec backoff schedule are calls and waits only. -/
theorem schedFrom_events :
    ∀ m k e, e ∈ schedFrom k m → e = Event.call ∨ ∃ w, e = Event.wait w := by
  intro m
  induction m with
  | zero => intro k e he; simp [schedFrom] at he
  | succ mm ih =>
      intro k e he
      simp only [schedFrom, List.mem_append] at he
      rcases he with he | he
      · simp only [attemptEvents] at he
        split at he
        · rcases List.mem_cons.mp he with h | h
          · right; exact ⟨_, h⟩
          · left; simpa using h
        · left; simpa using he
      · exact ih (k + 1) e he

/-- The spec backoff schedule over `m` attempts records exactly `m`
external calls. -/
theorem schedFrom_callCount : ∀ m k, callCount (schedFrom k m) = m := by
  intro m
  induction m with
  | zero => intro k; rfl
  | succ mm ih =>
      intro k
      simp only [schedFrom, attemptEvents]
      split
      · simp [callCount, ih]
      · simp [callCount, ih]

/-- Elements of the retry-loop trace are calls and waits only: no
snapshot, throttle or inter-item delay is emitted inside the loop. -/
theorem retryGo_trace_events (env : ItemEnv) (qid question : String)
    (n k consec : Nat) (le : Option String) (e : Event)
    (he : e ∈ (retryGo env qid question n k consec le).trace) :
    e = Event.call ∨ ∃ w, e = Event.wait w := by
  obtain ⟨m, _, ht⟩ := retryGo_trace_eq_sched env qid question n k consec le
  rw [ht] at he
  exact schedFrom_events m k e he

/-- Invariant preservation of the item loop: starting from a status whose
counters balance and whose room for the remaining items fits under
`total`, the final status balances, identity fields are untouched, and
every status snapshot handed to the callback balances and stays below
`total`. -/
theorem processLoop_inv (env : BatchEnv) (cfg : Config) (total : Nat) :
    ∀ (qs : List Question) (idx consec : Nat) (st : ProcessingStatus),
      st.processed = st.successful + st.failed →
      st.processed + qs.length ≤ st.total →
      ((processLoop env cfg total qs idx consec st).2.1.processed =
          (processLoop env cfg total qs idx consec st).2.1.successful +
            (processLoop env cfg total qs idx consec st).2.1.failed) ∧
      (processLoop env cfg total qs idx consec st).2.1.total = st.total ∧
      (processLoop env cfg total qs idx consec st).2.1.status = st.status ∧
      (processLoop env cfg total qs idx consec st).2.1.completed_at = st.completed_at ∧
      (processLoop env cfg total qs idx consec st).2.1.processed ≤ st.total ∧
      (∀ s, Event.snapshot s ∈ (processLoop env cfg total qs idx consec st).2.2 →
        s.processed = s.successful + s.failed ∧ s.processed ≤ s.total) := by
  intro qs
  induction qs with
  | nil =>
      intro idx consec st h1 h2
      refine ⟨h1, rfl, rfl, rfl, ?_, ?_⟩
      · simpa using h2
      · intro s hs; simp [processLoop] at hs
  | cons q rest ih =>
      intro idx consec st h1 h2
      by_cases hq : q.question = ""
      · simp only [processLoop, if_pos hq]
        refine ih (idx + 1) consec st h1 ?_
        simp only [List.length_cons] at h2
        omega
      · have hlen : st.processed + (rest.length + 1) ≤ st.total := by
          simpa [List.length_cons] using h2
        simp only [processLoop, if_neg hq]
        obtain ⟨hp, ht, hst, hjob, hcomp, hsum⟩ := stepStatus_fields st
          (retryGo (env.items idx) (questionId q idx) q.question cfg.max_retries 0
            (throttleCheck consec).2 none)
        obtain ⟨iA, iB, iC, iD, iE, iF⟩ := ih (idx + 1)
          (retryGo (env.items idx) (questionId q idx) q.question cfg.max_retries 0
            (throttleCheck consec).2 none).consec
          (stepStatus st
            (retryGo (env.items idx) (questionId q idx) q.question cfg.max_retries 0
              (throttleCheck consec).2 none))
          (by rw [hp, hsum, h1])
          (by rw [hp, ht]; omega)
        refine ⟨iA, by rw [iB, ht], by rw [iC, hst], by rw [iD, hcomp],
          by rw [ht] at iE; exact iE, ?_⟩
        intro s hs
        rcases List.mem_append.mp hs with h | h
        · rcases List.mem_append.mp h with h | h
          · exact absurd h (throttleCheck_no_snapshot consec s)
          · rcases retryGo_trace_events _ _ _ _ _ _ _ _ h with he | ⟨w, he⟩ <;>
              exact absurd he (by simp)
        · rcases List.mem_cons.mp h with h | h
          · injection h with hss
            subst hss
            exact ⟨by rw [hp, hsum, h1], by rw [hp, ht]; omega⟩
          · rcases List.mem_append.mp h with h | h
            · revert h
              split <;> simp
            · exact iF s h

/-- When every remaining question is non-empty, the loop advances
`processed` once per question. -/
theorem processLoop_processed_all (env : BatchEnv) (cfg : Config) (total : Nat) :
    ∀ (qs : List Question) (idx consec : Nat) (st : ProcessingStatus),
      (∀ q ∈ qs, q.question ≠ "") →
      (processLoop env cfg total qs idx consec st).2.1.processed =
        st.processed + qs.length := by
  intro qs
  induction qs with
  | nil => intro idx consec st _; rfl
  | cons q rest ih =>
      intro idx consec st hq
      have hq0 : q.question ≠ "" := hq q (List.mem_cons_self q rest)
      simp only [processLoop, if_neg hq0]
      rw [ih (idx + 1) _ _ fun p hp => hq p (List.mem_cons_of_mem q hp)]
      rw [(stepStatus_fields st _).1]
      simp only [List.length_cons]
      omega

/-- A retry loop that ends in success leaves `consecutive_errors` at 0. -/
theorem retryGo_success_consec (env : ItemEnv) (qid question : String) :
    ∀ (n k consec : Nat) (le : Option String),
      (retryGo env qid question n k consec le).success = true →
      (retryGo env qid question n k consec le).consec = 0 := by
  intro n
  induction n with
  | zero =>
      intro k consec le h
      exact absurd h (by simp [retryGo])
  | succ nn ih =>
      intro k consec le h
      cases hA : env.attempts k with
      | raises msg =>
          simp only [retryGo, hA] at h ⊢
          exact ih (k + 1) (consec + 1) (some msg) h
      | returns resp =>
          by_cases hc : resp.error_code = some "392708"
          · simp only [retryGo, hA, if_pos hc] at h
            exact absurd h (by simp)
          · simp only [retryGo, hA, if_neg hc]

/-- A retry loop all of whose attempts raise adds one to
`consecutive_errors` per attempt. -/
theorem retryGo_allfail_consec (env : ItemEnv) (qid question : String) :
    ∀ (n k consec : Nat) (le : Option String),
      (∀ j, j < n → ∃ m, env.attempts (k + j) = CallResult.raises m) →
      (retryGo env qid question n k consec le).consec = consec + n := by
  intro n
  induction n with
  | zero => intro k consec le _; rfl
  | succ nn ih =>
      intro k consec le h
      obtain ⟨m, hm⟩ := h 0 (by omega)
      rw [Nat.add_zero] at hm
      simp only [retryGo, hm]
      rw [ih (k + 1) (consec + 1) (some m) ?_]
      · omega
      · intro j hj
        have hh := h (j + 1) (by omega)
        rwa [show k + (j + 1) = k + 1 + j by omega] at hh

/-- A retry loop whose first `j` attempts raise and whose attempt `j`
returns a semantic-error (392708) reply adds one to `consecutive_errors`
per raised attempt plus one for the semantic reply. -/
theorem retryGo_semantic_after_raises (env : ItemEnv) (qid question : String) :
    ∀ (j n k consec : Nat) (le : Option String) (resp : ApiResponse),
      j < n →
      (∀ i, i < j → ∃ m, env.attempts (k + i) = CallResult.raises m) →
      env.attempts (k + j) = CallResult.returns resp →
      resp.error_code = some "392708" →
      (retryGo env qid question n k consec le).consec = consec + (j + 1) := by
  intro j
  induction j with
  | zero =>
      intro n k consec le resp hn hpre hsem hc
      obtain ⟨nn, rfl⟩ : ∃ nn, n = nn + 1 := ⟨n - 1, by omega⟩
      rw [Nat.add_zero] at hsem
      simp only [retryGo, hsem, if_pos hc]
  | succ jj ih =>
      intro n k consec le resp hn hpre hsem hc
      obtain ⟨nn, rfl⟩ : ∃ nn, n = nn + 1 := ⟨n - 1, by omega⟩
      obtain ⟨m, hm⟩ := hpre 0 (by omega)
      rw [Nat.add_zero] at hm
      simp only [retryGo, hm]
      rw [ih nn (k + 1) (consec + 1) (some m) resp (by omega) ?_ ?_ hc]
      · omega
      · intro i hi
        have hh := hpre (i + 1) (by omega)
        rwa [show k + (i + 1) = k + 1 + i by omega] at hh
      · rwa [show k + 1 + jj = k + (jj + 1) by omega]

/-- The extraction loop leaves its accumulator untouched when no item is
tagged `"text"` or `"sql"`. -/
theorem extractLoop_no_tags :
    ∀ (items : List ContentItem) (acc : String × String),
      (∀ it ∈ items, it.type ≠ some "text" ∧ it.type ≠ some "sql") →
      extractLoop items acc = acc := by
  intro items
  induction items with
  | nil => intro acc _; rfl
  | cons it rest ih =>
      intro acc h
      have h0 := h it (List.mem_cons_self it rest)
      simp only [extractLoop, if_neg h0.1, if_neg h0.2]
      exact ih acc fun p hp => h p (List.mem_cons_of_mem it hp)

/-- C1: for every batch run, every `ProcessingStatus` handed to the status
callback (the observation point immediately after an item completes, and
the final one) satisfies `processed = successful + failed`, and
`processed ≤ total` holds at all of these points. -/
theorem c1_snapshot_invariant (env : BatchEnv) (cfg : Config)
    (questions : List Question) (job_id : String) (s : ProcessingStatus)
    (hs : Event.snapshot s ∈ (runBatch env cfg questions job_id).2.2) :
    s.processed = s.successful + s.failed ∧ s.processed ≤ s.total := by
  obtain ⟨iA, iB, iC, iD, iE, iF⟩ := processLoop_inv env cfg questions.length questions 1 0
    { job_id := job_id
      status := "processing"
      total := questions.length
      started_at := some () } rfl (by simp)
  simp only [runBatch] at hs
  rcases List.mem_append.mp hs with h | h
  · exact iF s h
  · rcases List.mem_cons.mp h with h | h
    · injection h with hss
      subst hss
      refine ⟨iA, ?_⟩
      calc (processLoop env cfg questions.length questions 1 0
              { job_id := job_id
                status := "processing"
                total := questions.length
                started_at := some () }).2.1.processed
          ≤ questions.length := iE
        _ = _ := iB.symm
    · simp at h

/-- Witness for C1 at a concrete one-item batch whose single item
succeeds: the snapshot passed to the callback after that item. -/
theorem c1_snapshot_invariant_witness :
    ({ job_id := "j"
       status := "processing"
       total := 1
       processed := 1
       successful := 1
       started_at := some () } : ProcessingStatus).processed =
      ({ job_id := "j"
         status := "processing"
         total := 1
         processed := 1
         successful := 1
         started_at := some () } : ProcessingStatus).successful +
      ({ job_id := "j"
         status := "processing"
         total := 1
         processed := 1
         successful := 1
         started_at := some () } : ProcessingStatus).failed ∧
    ({ job_id := "j"
       status := "processing"
       total := 1
       processed := 1
       successful := 1
       started_at := some () } : ProcessingStatus).processed ≤
      ({ job_id := "j"
         status := "processing"
         total := 1
         processed := 1
         successful := 1
         started_at := some () } : ProcessingStatus).total :=
  c1_snapshot_invariant (constBatchEnv cleanEnv) defaultConfig
    [{ id := some "1", question := "A" }] "j" _ (by decide)

/-- C2 counterexample: a non-empty batch consisting of one row with empty
question text ends with `processed = 0` but `total = 1`, so the claimed
`processed = total` fails. -/
theorem c2_counterexample :
    (runBatch (constBatchEnv cleanEnv) defaultConfig
        [{ id := some "1", question := "" }] "j").2.1.processed = 0 ∧
    (runBatch (constBatchEnv cleanEnv) defaultConfig
        [{ id := some "1", question := "" }] "j").2.1.total = 1 ∧
    (runBatch (constBatchEnv cleanEnv) defaultConfig
          [{ id := some "1", question := "" }] "j").2.1.processed ≠
      (runBatch (constBatchEnv cleanEnv) defaultConfig
          [{ id := some "1", question := "" }] "j").2.1.total := by
  refine ⟨rfl, rfl, ?_⟩
  decide

/-- C2 (amended): for every non-empty input batch all of whose rows carry
non-empty question text, the final status satisfies
`processed = successful + failed` and `processed = total`. -/
theorem c2_final_counts (env : BatchEnv) (cfg : Config)
    (questions : List Question) (job_id : String)
    (_hne : questions ≠ [])
    (hall : ∀ q ∈ questions, q.question ≠ "") :
    (runBatch env cfg questions job_id).2.1.processed =
      (runBatch env cfg questions job_id).2.1.successful +
        (runBatch env cfg questions job_id).2.1.failed ∧
    (runBatch env cfg questions job_id).2.1.processed =
      (runBatch env cfg questions job_id).2.1.total := by
  obtain ⟨iA, iB, _, _, _, _⟩ := processLoop_inv env cfg questions.length questions 1 0
    { job_id := job_id
      status := "processing"
      total := questions.length
      started_at := some () } rfl (by simp)
  have hp := processLoop_processed_all env cfg questions.length questions 1 0
    { job_id := job_id
      status := "processing"
      total := questions.length
      started_at := some () } hall
  simp only [runBatch]
  exact ⟨iA, by rw [hp, iB]; simp⟩

/-- Witness for C2 (amended) on a concrete one-item batch. -/
theorem c2_final_counts_witness :
    (runBatch (constBatchEnv cleanEnv) defaultConfig
        [{ id := some "1", question := "A" }] "j").2.1.processed =
      (runBatch (constBatchEnv cleanEnv) defaultConfig
          [{ id := some "1", question := "A" }] "j").2.1.successful +
        (runBatch (constBatchEnv cleanEnv) defaultConfig
            [{ id := some "1", question := "A" }] "j").2.1.failed ∧
    (runBatch (constBatchEnv cleanEnv) defaultConfig
        [{ id := some "1", question := "A" }] "j").2.1.processed =
      (runBatch (constBatchEnv cleanEnv) defaultConfig
          [{ id := some "1", question := "A" }] "j").2.1.total :=
  c2_final_counts (constBatchEnv cleanEnv) defaultConfig
    [{ id := some "1", question := "A" }] "j" (by simp) (by decide)

/-- C3 counterexample: in a batch of only two items, where the first item
fails all three of its attempts (transport errors), a 30-second throttle
pause occurs — before the second item, after only ONE item failure.  Under
the claim, a pause requires three consecutive item failures and happens
earliest before a fourth item, which cannot exist here (`total = 2`).  The
source increments `consecutive_errors` once per failed attempt, not per
failed item. -/
theorem c3_counterexample :
    Event.throttle 30 ∈ (runBatch (constBatchEnv transportFailEnv) defaultConfig
        [{ id := some "1", question := "A" }, { id := some "2", question := "B" }]
        "j").2.2 ∧
    (runBatch (constBatchEnv transportFailEnv) defaultConfig
        [{ id := some "1", question := "A" }, { id := some "2", question := "B" }]
        "j").2.1.total = 2 ∧
    (runBatch (constBatchEnv transportFailEnv) defaultConfig
        [{ id := some "1", question := "A" }, { id := some "2", question := "B" }]
        "j").2.1.failed = 2 := by
  refine ⟨?_, rfl, rfl⟩
  decide

/-- C3 (amended): the throttle counter counts consecutive failed external
call attempts — each raised attempt and each semantic-error (392708) reply
adds one, a successful attempt resets it to zero — and whenever the
counter is at least 3 at the start of an item, exactly one 30-second pause
is slept before that item makes its first attempt, after which the counter
is reset to zero; no pause is ever emitted inside the retry loop itself. -/
theorem c3_attempt_counter :
    (∀ consec, 3 ≤ consec → throttleCheck consec = ([Event.throttle 30], 0)) ∧
    (∀ consec, consec < 3 → throttleCheck consec = ([], consec)) ∧
    (∀ (env : ItemEnv) (qid question : String) (n k consec : Nat)
        (le : Option String) (s : Nat),
      Event.throttle s ∉ (retryGo env qid question n k consec le).trace) ∧
    (∀ (env : ItemEnv) (qid question : String) (n k consec : Nat)
        (le : Option String),
      (retryGo env qid question n k consec le).success = true →
      (retryGo env qid question n k consec le).consec = 0) ∧
    (∀ (env : ItemEnv) (qid question : String) (n k consec : Nat)
        (le : Option String),
      (∀ j, j < n → ∃ m, env.attempts (k + j) = CallResult.raises m) →
      (retryGo env qid question n k consec le).consec = consec + n) ∧
    (∀ (env : ItemEnv) (qid question : String) (j n k consec : Nat)
        (le : Option String) (resp : ApiResponse),
      j < n →
      (∀ i, i < j → ∃ m, env.attempts (k + i) = CallResult.raises m) →
      env.attempts (k + j) = CallResult.returns resp →
      resp.error_code = some "392708" →
      (retryGo env qid question n k consec le).consec = consec + (j + 1)) := by
  refine ⟨?_, ?_, ?_, ?_, ?_, ?_⟩
  · intro consec h; simp [throttleCheck, h]
  · intro consec h; simp [throttleCheck, Nat.not_le.mpr h]
  · intro env qid question n k consec le s h
    rcases retryGo_trace_events env qid question n k consec le _ h with he | ⟨w, he⟩ <;>
      exact absurd he (by simp)
  · exact fun env qid question => retryGo_success_consec env qid question
  · exact fun env qid question => retryGo_allfail_consec env qid question
  · exact fun env qid question => retryGo_semantic_after_raises env qid question

/-- Witness for C3 (amended): the throttle fires and resets at counter 3,
stays silent at 2, one item whose three attempts all raise drives the
counter from 0 to 3, a lone semantic-error reply adds exactly one to a
counter standing at 5, and one raised attempt followed by a semantic reply
adds two. -/
theorem c3_attempt_counter_witness :
    throttleCheck 3 = ([Event.throttle 30], 0) ∧
    throttleCheck 2 = ([], 2) ∧
    (retryGo transportFailEnv "1" "A" 3 0 0 none).consec = 0 + 3 ∧
    (retryGo semanticEnv "1" "A" 3 0 5 none).consec = 5 + (0 + 1) ∧
    (retryGo mixedFailEnv "1" "A" 3 0 0 none).consec = 0 + (1 + 1) :=
  ⟨c3_attempt_counter.1 3 (by decide),
   c3_attempt_counter.2.1 2 (by decide),
   c3_attempt_counter.2.2.2.2.1 transportFailEnv "1" "A" 3 0 0 none
     (fun j hj => ⟨"boom", rfl⟩),
   c3_attempt_counter.2.2.2.2.2 semanticEnv "1" "A" 0 3 0 5 none
     { error_code := some "392708" } (by decide) (fun i hi => absurd hi (by omega))
     rfl rfl,
   c3_attempt_counter.2.2.2.2.2 mixedFailEnv "1" "A" 1 3 0 0 none
     { error_code := some "392708" } (by decide)
     (fun i hi => by
       have hi0 : i = 0 := by omega
       subst hi0
       exact ⟨"boom", rfl⟩)
     rfl rfl⟩

/-- C4: a question whose external call returns error code 392708 on the
first attempt makes exactly one external call (no backoff wait, no retry),
increments `error_392708` by exactly one, does not produce a success
record, and the item is recorded as failed (the `failed` counter advances,
`successful` does not, and the appended record carries
`status = "failed"`). -/
theorem c4_semantic_error (env : ItemEnv) (qid question : String)
    (n consec : Nat) (le : Option String) (resp : ApiResponse)
    (h0 : env.attempts 0 = CallResult.returns resp)
    (hc : resp.error_code = some "392708") :
    (retryGo env qid question (n + 1) 0 consec le).trace = [Event.call] ∧
    callCount (retryGo env qid question (n + 1) 0 consec le).trace = 1 ∧
    (retryGo env qid question (n + 1) 0 consec le).err392inc = 1 ∧
    (retryGo env qid question (n + 1) 0 consec le).success = false ∧
    ((retryGo env qid question (n + 1) 0 consec le).itemRec.getD
        (failedRecord qid question
          (retryGo env qid question (n + 1) 0 consec le).lastError)).status =
      "failed" ∧
    (∀ st : ProcessingStatus,
      (stepStatus st (retryGo env qid question (n + 1) 0 consec le)).failed =
        st.failed + 1 ∧
      (stepStatus st (retryGo env qid question (n + 1) 0 consec le)).successful =
        st.successful ∧
      (stepStatus st (retryGo env qid question (n + 1) 0 consec le)).error_392708 =
        st.error_392708 + 1) := by
  have hr : retryGo env qid question (n + 1) 0 consec le =
      { success := false
        lastError := some (semanticErrorText resp)
        consec := consec + 1
        err392inc := 1
        itemRec := none
        trace := [Event.call] } := by
    simp [retryGo, h0, if_pos hc]
  rw [hr]
  refine ⟨rfl, rfl, rfl, rfl, rfl, ?_⟩
  intro st
  simp [stepStatus]

/-- Witness for C4 at the concrete semantic-error oracle. -/
theorem c4_semantic_error_witness :
    (retryGo semanticEnv "1" "A" 3 0 0 none).trace = [Event.call] ∧
    (retryGo semanticEnv "1" "A" 3 0 0 none).err392inc = 1 ∧
    (retryGo semanticEnv "1" "A" 3 0 0 none).success = false := by
  obtain ⟨h1, _, h3, h4, _, _⟩ := c4_semantic_error semanticEnv "1" "A" 2 0 none
    { error_code := some "392708" } rfl rfl
  exact ⟨h1, h3, h4⟩

/-- C5: the retry loop makes at most `max_retries` external calls (default
3); its event trace is exactly the spec backoff schedule over the number of
calls actually made — attempt 0 runs with no preceding wait and attempt
`k ≥ 1` is preceded by a wait of exactly `5 * 2 ^ (k - 1)` seconds (base
delay 5 seconds, as hardcoded in the source). -/
theorem c5_backoff_schedule (env : ItemEnv) (qid question : String)
    (n consec : Nat) (le : Option String) :
    defaultConfig.max_retries = 3 ∧
    defaultConfig.delay_between_requests = 5 ∧
    ∃ m, m ≤ n ∧
      (retryGo env qid question n 0 consec le).trace = schedFrom 0 m ∧
      callCount (retryGo env qid question n 0 consec le).trace = m := by
  refine ⟨rfl, rfl, ?_⟩
  obtain ⟨m, hm, ht⟩ := retryGo_trace_eq_sched env qid question n 0 consec le
  exact ⟨m, hm, ht, by rw [ht]; exact schedFrom_callCount m 0⟩

/-- C6 counterexample: on a concrete successful one-item batch,
`process_csv` sets `completed_at` but leaves the lifecycle state at
`"processing"`; in particular the status passed to the final observer
callback (the last trace event) does not satisfy `status = "completed"`. -/
theorem c6_counterexample :
    (runBatch (constBatchEnv cleanEnv) defaultConfig
        [{ id := some "1", question := "A" }] "j").2.1.status = "processing" ∧
    (runBatch (constBatchEnv cleanEnv) defaultConfig
        [{ id := some "1", question := "A" }] "j").2.1.status ≠ "completed" ∧
    (runBatch (constBatchEnv cleanEnv) defaultConfig
        [{ id := some "1", question := "A" }] "j").2.1.completed_at = some () ∧
    (runBatch (constBatchEnv cleanEnv) defaultConfig
        [{ id := some "1", question := "A" }] "j").2.2.getLast? =
      some (Event.snapshot (runBatch (constBatchEnv cleanEnv) defaultConfig
        [{ id := some "1", question := "A" }] "j").2.1) := by
  refine ⟨rfl, ?_, rfl, rfl⟩
  decide

/-- C6 (amended): after all items, the pipeline sets `completed_at` and
fires the final observer callback, but the lifecycle state it maintains is
still `"processing"`; the `"completed"` state is set only by the caller
(`routers/jobs.py`) on the job registry after `process_csv` returns. -/
theorem c6_completion (env : BatchEnv) (cfg : Config)
    (questions : List Question) (job_id oj oc : String) :
    (runBatch env cfg questions job_id).2.1.completed_at = some () ∧
    (runBatch env cfg questions job_id).2.1.status = "processing" ∧
    (∃ tr0, (runBatch env cfg questions job_id).2.2 =
      tr0 ++ [Event.snapshot (runBatch env cfg questions job_id).2.1]) ∧
    (jobsFinalize (runBatch env cfg questions job_id).2.1 oj oc).status =
      "completed" := by
  obtain ⟨_, _, iC, _, _, _⟩ := processLoop_inv env cfg questions.length questions 1 0
    { job_id := job_id
      status := "processing"
      total := questions.length
      started_at := some () } rfl (by simp)
  exact ⟨rfl, iC, ⟨_, rfl⟩, rfl⟩

/-- C7: `process_csv` raises only for the pipeline-fatal condition of a
missing connected session — the error carries no results, no status and no
events, so no counter has advanced and no observer call has occurred — and
with a session present it returns normally for every oracle, batch and
configuration, so per-item failures are never raised to the caller. -/
theorem c7_fatal_only_disconnected (env : BatchEnv) (cfg : Config)
    (questions : List Question) (job_id : String) :
    process_csv false env cfg questions job_id =
      Except.error "Not connected to Snowflake. Call test_connection() first." ∧
    process_csv true env cfg questions job_id =
      Except.ok (runBatch env cfg questions job_id) :=
  ⟨rfl, rfl⟩

/-- Dynamic extraction over a list all of whose items are dicts raises
nothing, and returns the accumulator unchanged when no item carries a
`"text"` or `"sql"` tag. -/
theorem extractDyn_dicts :
    ∀ (items : List PyVal) (acc : PyVal × PyVal),
      (∀ it ∈ items, pyIsDict it = true) →
      ∃ res, extractDyn items acc = Except.ok res ∧
        ((∀ it ∈ items,
            pyGet it "type" PyVal.pynone ≠ Except.ok (PyVal.str "text") ∧
            pyGet it "type" PyVal.pynone ≠ Except.ok (PyVal.str "sql")) →
          res = acc) := by
  intro items
  induction items with
  | nil => intro acc _; exact ⟨acc, rfl, fun _ => rfl⟩
  | cons it rest ih =>
      intro acc h
      have hd := h it (List.mem_cons_self it rest)
      have hrest := fun p hp => h p (List.mem_cons_of_mem it hp)
      cases it with
      | str s => simp [pyIsDict] at hd
      | pynone => simp [pyIsDict] at hd
      | list l => simp [pyIsDict] at hd
      | dict f =>
          have hget : pyGet (PyVal.dict f) "type" PyVal.pynone =
              Except.ok ((f.lookup "type").getD PyVal.pynone) := rfl
          cases hv : (f.lookup "type").getD PyVal.pynone with
          | str s =>
              by_cases h1 : s = "text"
              · subst h1
                obtain ⟨res, hres, _⟩ :=
                  ih ((f.lookup "text").getD (PyVal.str ""), acc.2) hrest
                refine ⟨res, ?_, ?_⟩
                · simp only [extractDyn, pyGet, hv]
                  exact hres
                · intro hno
                  exact absurd (by rw [hget, hv])
                    (hno (PyVal.dict f) (List.mem_cons_self _ _)).1
              · by_cases h2 : s = "sql"
                · subst h2
                  obtain ⟨res, hres, _⟩ :=
                    ih (acc.1, (f.lookup "statement").getD (PyVal.str "")) hrest
                  refine ⟨res, ?_, ?_⟩
                  · simp only [extractDyn, pyGet, hv]
                    exact hres
                  · intro hno
                    exact absurd (by rw [hget, hv])
                      (hno (PyVal.dict f) (List.mem_cons_self _ _)).2
                · obtain ⟨res, hres, hres2⟩ := ih acc hrest
                  refine ⟨res, ?_, ?_⟩
                  · simp only [extractDyn, pyGet, hv, if_neg h1, if_neg h2]
                    exact hres
                  · intro hno
                    exact hres2 fun p hp => hno p (List.mem_cons_of_mem _ hp)
          | pynone =>
              obtain ⟨res, hres, hres2⟩ := ih acc hrest
              refine ⟨res, ?_, ?_⟩
              · simp only [extractDyn, pyGet, hv]
                exact hres
              · intro hno
                exact hres2 fun p hp => hno p (List.mem_cons_of_mem _ hp)
          | list l =>
              obtain ⟨res, hres, hres2⟩ := ih acc hrest
              refine ⟨res, ?_, ?_⟩
              · simp only [extractDyn, pyGet, hv]
                exact hres
              · intro hno
                exact hres2 fun p hp => hno p (List.mem_cons_of_mem _ hp)
          | dict g =>
              obtain ⟨res, hres, hres2⟩ := ih acc hrest
              refine ⟨res, ?_, ?_⟩
              · simp only [extractDyn, pyGet, hv]
                exact hres
              · intro hno
                exact hres2 fun p hp => hno p (List.mem_cons_of_mem _ hp)

/-- C8 counterexample: the extraction is NOT failure-free on every reply
shape.  At three concrete non-semantic replies — `message` present but a
string, `content` present but `None`, and a content item that is not a
dict — the source raises (`AttributeError` on `.get`, `TypeError` on
iteration) instead of yielding an empty interpretation and query; the
exception is caught by the per-item retry `except` block, so the item is
retried and can end `failed`, not empty-successful. -/
theorem c8_counterexample :
    extractContentDyn (PyVal.dict [("message", PyVal.str "oops")]) =
      Except.error "AttributeError: get" ∧
    extractContentDyn (PyVal.dict [("message", PyVal.dict
        [("content", PyVal.pynone)])]) =
      Except.error "TypeError: not iterable" ∧
    extractContentDyn (PyVal.dict [("message", PyVal.dict
        [("content", PyVal.list [PyVal.pynone])])]) =
      Except.error "AttributeError: get" :=
  ⟨rfl, rfl, rfl⟩

/-- C8 (amended): on every reply whose `message`, when present, is a dict,
whose `content`, when present, is a list, and whose content items are all
dicts, the extraction raises nothing and always produces a result — in
particular a missing content list, missing type tags, or unknown tags
yield an empty interpretation and an empty query.  (On shapes outside
this family the source raises and the retry loop absorbs the exception;
see the counterexample.) -/
theorem c8_contract_shapes (fields mf : List (String × PyVal))
    (items : List PyVal)
    (hmsg : (fields.lookup "message").getD (PyVal.dict []) = PyVal.dict mf)
    (hcontent : (mf.lookup "content").getD (PyVal.list []) = PyVal.list items)
    (hdicts : ∀ it ∈ items, pyIsDict it = true) :
    ∃ res, extractContentDyn (PyVal.dict fields) = Except.ok res ∧
      ((∀ it ∈ items,
          pyGet it "type" PyVal.pynone ≠ Except.ok (PyVal.str "text") ∧
          pyGet it "type" PyVal.pynone ≠ Except.ok (PyVal.str "sql")) →
        res = (PyVal.str "", PyVal.str "")) := by
  have hred : extractContentDyn (PyVal.dict fields) =
      extractDyn items (PyVal.str "", PyVal.str "") := by
    simp only [extractContentDyn, pyGet, hmsg, hcontent, pyIter]
  obtain ⟨res, hres, hres2⟩ :=
    extractDyn_dicts items (PyVal.str "", PyVal.str "") hdicts
  exact ⟨res, by rw [hred]; exact hres, hres2⟩

/-- Witness for C8 (amended): a reply whose single content item carries an
unknown tag extracts, without raising, to empty interpretation and
query. -/
theorem c8_contract_shapes_witness :
    extractContentDyn (PyVal.dict [("message", PyVal.dict [("content",
        PyVal.list [PyVal.dict [("type", PyVal.str "chart")]])])]) =
      Except.ok (PyVal.str "", PyVal.str "") := by
  obtain ⟨res, hres, hres2⟩ := c8_contract_shapes
    [("message", PyVal.dict [("content",
      PyVal.list [PyVal.dict [("type", PyVal.str "chart")]])])]
    [("content", PyVal.list [PyVal.dict [("type", PyVal.str "chart")]])]
    [PyVal.dict [("type", PyVal.str "chart")]]
    rfl rfl (by intro it hit; simp at hit; subst hit; rfl)
  rw [hres, hres2]
  intro it hit
  simp at hit
  subst hit
  constructor
  · intro hcon
    rw [show pyGet (PyVal.dict [("type", PyVal.str "chart")]) "type" PyVal.pynone =
        Except.ok (PyVal.str "chart") from rfl] at hcon
    simp at hcon
  · intro hcon
    rw [show pyGet (PyVal.dict [("type", PyVal.str "chart")]) "type" PyVal.pynone =
        Except.ok (PyVal.str "chart") from rfl] at hcon
    simp at hcon

/-- C9: when the backend returns rows for a non-empty generated query, the
serialized payload is built from the capped row list; with more than 100
rows the capped list is exactly the first 100 rows in order (so the
serialized payload holds exactly 100 rows and the logged row count is
100); with at most 100 rows every row is kept. -/
theorem c9_row_cap (env : ItemEnv) (stmt : String) (qr : List Row) (d : Nat)
    (hs : stmt ≠ "") (hq : env.sqlExec stmt = SqlResult.rows qr d) :
    runGeneratedSql env stmt =
      (serializeRows ((cappedRows qr).map row_to_dict), d,
        some (cappedRows qr).length) ∧
    (100 < qr.length →
      cappedRows qr = qr.take 100 ∧ (cappedRows qr).length = 100) ∧
    (qr.length ≤ 100 → cappedRows qr = qr) := by
  refine ⟨?_, ?_, ?_⟩
  · simp only [runGeneratedSql, if_pos hs, hq]
  · intro h
    refine ⟨by simp [cappedRows, h], ?_⟩
    simp [cappedRows, h, List.length_take]
    omega
  · intro h
    simp [cappedRows, Nat.not_lt.mpr h]

/-- Witness for C9 at a concrete 150-row backend. -/
theorem c9_row_cap_witness :
    runGeneratedSql bigRowsEnv "SELECT 1" =
      (serializeRows ((cappedRows (List.replicate 150 (Row.ok [("A", "1")]))).map
        row_to_dict), 7,
        some (cappedRows (List.replicate 150 (Row.ok [("A", "1")]))).length) ∧
    (cappedRows (List.replicate 150 (Row.ok [("A", "1")])) =
      (List.replicate 150 (Row.ok [("A", "1")])).take 100 ∧
      (cappedRows (List.replicate 150 (Row.ok [("A", "1")]))).length = 100) := by
  obtain ⟨h1, h2, _⟩ := c9_row_cap bigRowsEnv "SELECT 1"
    (List.replicate 150 (Row.ok [("A", "1")])) 7 (by decide) rfl
  exact ⟨h1, h2 (by simp)⟩

/-- C10: when the external call succeeds (no semantic error) but the
generated query raises a backend error, the retry loop still succeeds: the
appended record has `status = "success"`, its `query_results` field holds
the error text prefixed with `SQL error: `, its `sql_duration_ms` holds
the duration measured up to the failure, and the `successful` counter
advances while `failed` does not. -/
theorem c10_sql_error_item_success (env : ItemEnv) (qid question : String)
    (n consec : Nat) (le : Option String) (resp : ApiResponse)
    (msg : String) (d : Nat)
    (h0 : env.attempts 0 = CallResult.returns resp)
    (hc : resp.error_code ≠ some "392708")
    (hstmt : (extractContent resp).2 ≠ "")
    (hq : env.sqlExec (extractContent resp).2 = SqlResult.err msg d) :
    (retryGo env qid question (n + 1) 0 consec le).success = true ∧
    (retryGo env qid question (n + 1) 0 consec le).itemRec =
      some (successRecord qid question (extractContent resp).1
        (extractContent resp).2 ("SQL error: " ++ msg) resp d) ∧
    (successRecord qid question (extractContent resp).1 (extractContent resp).2
      ("SQL error: " ++ msg) resp d).status = "success" ∧
    (successRecord qid question (extractContent resp).1 (extractContent resp).2
      ("SQL error: " ++ msg) resp d).query_results = "SQL error: " ++ msg ∧
    (successRecord qid question (extractContent resp).1 (extractContent resp).2
      ("SQL error: " ++ msg) resp d).sql_duration_ms = d ∧
    (∀ st : ProcessingStatus,
      (stepStatus st (retryGo env qid question (n + 1) 0 consec le)).successful =
        st.successful + 1 ∧
      (stepStatus st (retryGo env qid question (n + 1) 0 consec le)).failed =
        st.failed) := by
  have hrun : runGeneratedSql env (extractContent resp).2 =
      ("SQL error: " ++ msg, d, none) := by
    simp only [runGeneratedSql, if_pos hstmt, hq]
  have hr : retryGo env qid question (n + 1) 0 consec le =
      { success := true
        lastError := le
        consec := 0
        err392inc := 0
        itemRec := some (successRecord qid question (extractContent resp).1
          (extractContent resp).2 ("SQL error: " ++ msg) resp d)
        trace := [Event.call] } := by
    simp [retryGo, h0, if_neg hc, hrun]
  rw [hr]
  refine ⟨rfl, rfl, rfl, rfl, rfl, ?_⟩
  intro st
  simp [stepStatus]

/-- Witness for C10 at the concrete failing-backend oracle. -/
theorem c10_sql_error_item_success_witness :
    (retryGo sqlErrEnv "1" "A" 3 0 0 none).success = true ∧
    (retryGo sqlErrEnv "1" "A" 3 0 0 none).itemRec =
      some (successRecord "1" "A" (extractContent sqlReply).1
        (extractContent sqlReply).2 ("SQL error: " ++ "table missing")
        sqlReply 42) := by
  obtain ⟨h1, h2, _⟩ := c10_sql_error_item_success sqlErrEnv "1" "A" 2 0 none
    sqlReply "table missing" 42 rfl (by decide) (by decide) rfl
  exact ⟨h1, h2⟩

end CortexAnalystUI
